import Mathlib

/-!
# Verification of the ECE461 metrics module (`src/metrics.ts`)

Shallow embedding of the three scorers in `src/metrics.ts`:

* `getBusFactor` — paginated contributor count mapped through a step function;
* `calculateRampUpMetric` / `countSlocAndCommentsLimited` — comment-density
  counting over the first 100 lines of each source file;
* `checkLicenseCompatibility` — license resolution cascade
  (LICENSE file → package.json → README) and allow-list matching.

Network and filesystem effects are abstracted: each operation takes an
explicit environment recording what the remote endpoints would answer
(already base64-decoded, as the code decodes every response before use).
JavaScript numbers are modelled as `Rat`, with the division-by-zero
behaviour of `/` made explicit in `JsNumber`. JavaScript strings are
modelled as `String` / `List Char`; the string operations used by the code
(`toLowerCase`, `trim`, `includes`, `startsWith`, `endsWith`,
`split`, `replace`) are defined below over `List Char`, restricted to the
code points the code actually manipulates.
-/

/-- ASCII lowering of one character, the fragment of JavaScript
`toLowerCase` exercised by the code (all allow-list entries are ASCII). -/
def jsToLowerChar (c : Char) : Char :=
  if 'A' ≤ c ∧ c ≤ 'Z' then Char.ofNat (c.toNat + 32) else c

/-- JavaScript `String.prototype.toLowerCase`, ASCII fragment. -/
def jsToLower (s : String) : String :=
  ⟨s.data.map jsToLowerChar⟩

/-- JavaScript whitespace (`\s` in a regex, and the set removed by
`trim`): tab, LF, VT, FF, CR, space, NBSP, and the Unicode space
separators, line/paragraph separators and BOM. -/
def jsWs (c : Char) : Bool :=
  c.toNat = 9 ∨ c.toNat = 10 ∨ c.toNat = 11 ∨ c.toNat = 12 ∨ c.toNat = 13 ∨
  c.toNat = 32 ∨ c.toNat = 160 ∨ c.toNat = 0x1680 ∨
  (0x2000 ≤ c.toNat ∧ c.toNat ≤ 0x200A) ∨
  c.toNat = 0x2028 ∨ c.toNat = 0x2029 ∨ c.toNat = 0x202F ∨
  c.toNat = 0x205F ∨ c.toNat = 0x3000 ∨ c.toNat = 0xFEFF

/-- JavaScript `String.prototype.trim` on a character list. -/
def jsTrim (cs : List Char) : List Char :=
  ((cs.dropWhile jsWs).reverse.dropWhile jsWs).reverse

/-- JavaScript `str.split('\n')`: splitting on every newline, keeping
empty segments (so the empty string yields one empty line). -/
def splitLines : List Char → List (List Char)
  | [] => [[]]
  | c :: rest =>
    if c = '\n' then [] :: splitLines rest
    else
      match splitLines rest with
      | [] => [[c]]
      | l :: ls => (c :: l) :: ls

/-- Substring containment on character lists: `needle` occurs
contiguously in `haystack`. -/
def listContains (haystack needle : List Char) : Bool :=
  needle.isPrefixOf haystack ||
    match haystack with
    | [] => false
    | _ :: rest => listContains rest needle

/-- JavaScript `haystack.includes(needle)` (substring containment). -/
def jsIncludes (haystack needle : String) : Bool :=
  listContains haystack.data needle.data

/-- JavaScript `s.startsWith(p)` on character lists. -/
def jsStartsWith (cs p : List Char) : Bool :=
  p.isPrefixOf cs

/-- JavaScript `s.endsWith(p)` on character lists. -/
def jsEndsWith (cs p : List Char) : Bool :=
  p.isSuffixOf cs

/-- JavaScript `s.replace(a, b)` with one-character string arguments:
replaces only the FIRST occurrence of `a` (semantics of `String.replace`
with a string pattern). -/
def jsReplaceFirstChar : List Char → Char → Char → List Char
  | [], _, _ => []
  | c :: rest, a, b =>
    if c = a then b :: rest else c :: jsReplaceFirstChar rest a b

/-- `s.replace('-', ' ')` and friends, on `String`. -/
def jsReplaceFirst (s : String) (a b : Char) : String :=
  ⟨jsReplaceFirstChar s.data a b⟩

/-- JavaScript `s.split('\n')[0]`: everything before the first newline. -/
def jsFirstLine (s : String) : String :=
  ⟨s.data.takeWhile (· ≠ '\n')⟩

/-- JavaScript template-literal rendering of a boolean (`${compatible}`). -/
def boolToString (b : Bool) : String :=
  if b then "true" else "false"

/-!
## Bus factor (`getBusFactor`, `src/metrics.ts` lines 11–69)
-/

/-- The step function of `src/metrics.ts` lines 40–61 mapping the total
contributor count to a score.  Scores are JavaScript numbers, modelled as
`Rat` (every constant in the chain is exactly representable). -/
def busFactorScore (totalContributors : Nat) : Rat :=
  if totalContributors = 1 then 0.1
  else if totalContributors = 2 then 0.2
  else if totalContributors ≤ 4 then 0.3
  else if totalContributors ≤ 8 then 0.4
  else if totalContributors ≤ 16 then 0.5
  else if totalContributors ≤ 32 then 0.6
  else if totalContributors ≤ 64 then 0.7
  else if totalContributors ≤ 128 then 0.8
  else if totalContributors ≤ 256 then 0.9
  else 1.0

/-- The `while (true)` pagination loop of lines 18–37.  `server page` is
the outcome of the GET for that page: `.error` if the request fails
(axios throws), `.ok len` the length of the returned contributor array.
The loop adds each page's length to the running total, counts one request
per iteration, and stops as soon as a page has fewer than `PER_PAGE = 100`
entries.  `fuel` bounds the iteration count (the TypeScript loop has no
bound; `none` means the fuel ran out before the loop finished). -/
def busFactorLoop (server : Nat → Except String Nat) :
    Nat → Nat → Nat → Nat → Option (Except String (Nat × Nat))
  | 0, _, _, _ => none
  | fuel + 1, page, total, reqs =>
    match server page with
    | .error e => some (.error e)
    | .ok len =>
      if len < 100 then some (.ok (total + len, reqs + 1))
      else busFactorLoop server fuel (page + 1) (total + len) (reqs + 1)

/-- `getBusFactor` (lines 11–69): run the pagination loop from page 1 with
zero accumulated contributors; a request failure is caught by the
`try/catch` and converted to the sentinel score `-1`, otherwise the total
goes through `busFactorScore`. -/
def getBusFactor (server : Nat → Except String Nat) (fuel : Nat) : Option Rat :=
  match busFactorLoop server fuel 1 0 0 with
  | none => none
  | some (.error _) => some (-1)
  | some (.ok (total, _)) => some (busFactorScore total)

/-!
## Ramp-up metric (`countSlocAndCommentsLimited`, `calculateRampUpMetric`,
lines 83–165)
-/

/-- The per-file result `{ sloc, comments }` of line counting. -/
structure SlocSample where
  sloc : Nat
  comments : Nat
deriving DecidableEq

/-- The classification loop of lines 89–106, one step per (already
truncated) line, carrying the `inBlockComment` flag and both counters. -/
def slocLoop : List (List Char) → Bool → Nat → Nat → SlocSample
  | [], _, sloc, comments => ⟨sloc, comments⟩
  | line :: rest, inBlockComment, sloc, comments =>
    let trimmedLine := jsTrim line
    if inBlockComment then
      slocLoop rest (!jsEndsWith trimmedLine "*/".data) sloc (comments + 1)
    else if jsStartsWith trimmedLine "//".data then
      slocLoop rest false sloc (comments + 1)
    else if jsStartsWith trimmedLine "/*".data then
      slocLoop rest (!jsEndsWith trimmedLine "*/".data) sloc (comments + 1)
    else if trimmedLine.length > 0 then
      slocLoop rest false (sloc + 1) comments
    else
      slocLoop rest false sloc comments

/-- `countSlocAndCommentsLimited` (lines 83–109): split the file content on
newlines, keep the first 100 lines, and classify each trimmed line. -/
def countSlocAndCommentsLimited (fileContent : String) : SlocSample :=
  slocLoop ((splitLines fileContent.data).take 100) false 0 0

/-- A JavaScript number as produced by `a / b` on non-negative operands:
a finite value, `NaN` (from `0 / 0`), or `+Infinity` (from `a / 0`,
`a > 0`). -/
inductive JsNumber where
  | num (q : Rat)
  | nan
  | posInf
deriving DecidableEq

/-- JavaScript division of two non-negative integers, keeping the exact
quotient (the spec-level value; IEEE rounding is below this abstraction)
and the IEEE behaviour at a zero divisor. -/
def jsDivNat (a b : Nat) : JsNumber :=
  if b = 0 then (if a = 0 then .nan else .posInf)
  else .num ((a : Rat) / (b : Rat))

/-- The `{ sloc, comments, ratio }` record returned by
`calculateRampUpMetric`. -/
structure RampUpResult where
  sloc : Nat
  comments : Nat
  ratio : JsNumber
deriving DecidableEq

/-- `calculateRampUpMetric` (lines 137–165).  The directory walk is an
external filesystem utility; its observable effect is the list of contents
of the selected `.ts`/`.js` files, taken here as the argument.  Totals are
accumulated across files and the ratio is the unguarded quotient
`totalComments / totalSloc` of line 149 (the README processing of lines
156–162 computes nothing that reaches the returned value). -/
def calculateRampUpMetric (files : List String) : RampUpResult :=
  let totals := files.foldl
    (fun acc f =>
      let sample := countSlocAndCommentsLimited f
      (acc.1 + sample.sloc, acc.2 + sample.comments))
    (0, 0)
  ⟨totals.1, totals.2, jsDivNat totals.2 totals.1⟩

/-!
## License check (`checkLicenseCompatibility` and helpers, lines 168–258)
-/

/-- The result record `{ score, details }` of the license check. -/
structure LicenseCheckResult where
  score : Nat
  details : String
deriving DecidableEq

/-- What the network would answer to the requests one
`checkLicenseCompatibility` call can make, each payload already
base64-decoded as the code does on receipt:

* `npmRepositoryUrl` — the registry metadata fetch for an npm URL:
  `.error msg` if the request fails, `.ok none` if the metadata has no
  truthy `repository.url`, `.ok (some u)` the declared URL;
* `licenseFile` — `GET …/contents/LICENSE`: `none` if the request fails
  (the inner `catch`), otherwise the decoded file content;
* `packageJson` — `GET …/contents/package.json`: `none` if the request
  or the JSON parse fails, `some none` if the parsed manifest has no
  truthy `license` field, `some (some s)` the field's value;
* `readme` — `GET …/readme`: `.error msg` if the request fails (caught
  only by the outer `catch`), otherwise the decoded README. -/
structure NetworkEnv where
  npmRepositoryUrl : Except String (Option String)
  licenseFile : Option String
  packageJson : Option (Option String)
  readme : Except String String

/-- The value of the `licenseInfo` variable after lines 200–217: the
decoded LICENSE file if that fetch succeeded, otherwise the manifest's
`license` field (or `''` when the manifest step fails or has no field). -/
def licenseInfoAfterSteps12 (env : NetworkEnv) : String :=
  match env.licenseFile with
  | some txt => txt
  | none => (env.packageJson.bind id).getD ""

/-- The regex `/#+\s*License\s*([\s\S]*?)(?=#+|$)/i` applied at one
candidate position: one or more `#`, optional whitespace, the word
`License` case-insensitively, optional whitespace, then the (lazy)
capture running to the next `#` or the end of the document. -/
def matchLicenseHeadingAt (cs : List Char) : Option (List Char) :=
  match cs with
  | '#' :: rest =>
    let afterHash := rest.dropWhile (· = '#')
    let afterWs := afterHash.dropWhile jsWs
    if (afterWs.take 7).map jsToLowerChar = "license".data then
      let afterWord := (afterWs.drop 7).dropWhile jsWs
      some (afterWord.takeWhile (· ≠ '#'))
    else none
  | _ => none

/-- Leftmost-match scan of the whole document for the license-heading
regex. -/
def findLicenseSection : List Char → Option (List Char)
  | [] => none
  | c :: rest =>
    match matchLicenseHeadingAt (c :: rest) with
    | some cap => some cap
    | none => findLicenseSection rest

/-- `extractLicenseFromReadme` (lines 241–245): first regex match's
capture group, trimmed; `none` when no heading matches. -/
def extractLicenseFromReadme (content : String) : Option String :=
  (findLicenseSection content.data).map (fun cap => ⟨jsTrim cap⟩)

/-- The README fallback step (lines 220–224): on fetch success the
extracted section (`''` when absent, from `… || ''`); a fetch failure
propagates to the outer `catch`. -/
def readmeStep : Except String String → Except String String
  | .ok content => .ok ((extractLicenseFromReadme content).getD "")
  | .error msg => .error msg

/-- The full resolution cascade, lines 200–224: LICENSE file, then
manifest, then — only when those produced no (non-empty) text — the
README. -/
def licenseResolutionResult (env : NetworkEnv) : Except String String :=
  let licenseInfo := licenseInfoAfterSteps12 env
  if licenseInfo = "" then readmeStep env.readme
  else .ok licenseInfo

/-- The fixed allow-list of lines 248–253. -/
def compatibleLicenses : List String :=
  ["LGPL-2.1", "LGPL-3.0",
   "GPL-2.0", "GPL-3.0",
   "MIT", "BSD-2-Clause", "BSD-3-Clause",
   "Apache-2.0", "ISC", "Unlicense"]

/-- `isCompatibleWithLGPLv2_1` (lines 247–258): the lowered text must
contain some allow-list entry lowered, or that entry lowered with its
FIRST hyphen replaced by a space (`String.replace` with a string pattern
replaces only the first occurrence). -/
def isCompatibleWithLGPLv2_1 (licenseText : String) : Bool :=
  compatibleLicenses.any fun license =>
    jsIncludes (jsToLower licenseText) (jsToLower license) ||
    jsIncludes (jsToLower licenseText) (jsReplaceFirst (jsToLower license) '-' ' ')

/-- Modelled from the spec's words for claim C3 (not from the code): the
text contains an allow-list entry case-insensitively, or that entry with
ALL its hyphens treated as spaces.  Compared against
`isCompatibleWithLGPLv2_1` to settle the claim. -/
def claimAllHyphensCompatible (licenseText : String) : Bool :=
  compatibleLicenses.any fun license =>
    jsIncludes (jsToLower licenseText) (jsToLower license) ||
    jsIncludes (jsToLower licenseText)
      ⟨(jsToLower license).data.map (fun c => if c = '-' then ' ' else c)⟩

/-- Lines 226–234: score non-empty resolved text through the allow-list
test, with the detail string naming the first line of the text and the
compatibility verdict; empty text means the cascade was exhausted. -/
def scoreLicenseInfo (licenseInfo : String) : LicenseCheckResult :=
  if licenseInfo = "" then ⟨0, "No license information found"⟩
  else
    let compatible := isCompatibleWithLGPLv2_1 licenseInfo
    ⟨if compatible then 1 else 0,
     "License found: " ++ jsFirstLine licenseInfo ++ ". Compatible: " ++
       boolToString compatible⟩

/-- The npm package-page URL prefix of lines 183–184. -/
def npmUrlStart : String := "https://www.npmjs.com/package/"

/-- `checkLicenseCompatibility` (lines 168–239).  `token` is the
process-wide `GITHUB_TOKEN` (`none`: unset; the code's `!GITHUB_TOKEN`
is also true for an empty string).  The npm branch consults the registry
metadata; every error reaching the outer `catch` becomes
`Error checking license: <msg>`. -/
def checkLicenseCompatibility (token : Option String) (env : NetworkEnv)
    (url : String) : LicenseCheckResult :=
  if token.getD "" = "" then ⟨0, "GitHub token not set"⟩
  else if jsStartsWith url.data npmUrlStart.data then
    match env.npmRepositoryUrl with
    | .error msg => ⟨0, "Error checking license: " ++ msg⟩
    | .ok none => ⟨0, "No GitHub repository found for npm package"⟩
    | .ok (some _) =>
      match licenseResolutionResult env with
      | .error msg => ⟨0, "Error checking license: " ++ msg⟩
      | .ok info => scoreLicenseInfo info
  else
    match licenseResolutionResult env with
    | .error msg => ⟨0, "Error checking license: " ++ msg⟩
    | .ok info => scoreLicenseInfo info

/-!
## Theorems: bus factor (claims C1, C10, C4, C6)
-/

set_option maxHeartbeats 1000000 in
/-- **C1.** The bus-factor score is the fixed step function with
right-inclusive thresholds: count 1 ↦ 0.1, count 2 ↦ 0.2, counts 0, 3, 4
↦ 0.3, 5–8 ↦ 0.4, 9–16 ↦ 0.5, 17–32 ↦ 0.6, 33–64 ↦ 0.7, 65–128 ↦ 0.8,
129–256 ↦ 0.9, and anything above 256 ↦ 1.0; in particular count 0 falls
into the `≤ 4` branch and scores 0.3. -/
theorem busFactor_step_table (c : Nat) :
    (c = 1 → busFactorScore c = 0.1) ∧
    (c = 2 → busFactorScore c = 0.2) ∧
    (c ≠ 1 → c ≠ 2 → c ≤ 4 → busFactorScore c = 0.3) ∧
    (4 < c → c ≤ 8 → busFactorScore c = 0.4) ∧
    (8 < c → c ≤ 16 → busFactorScore c = 0.5) ∧
    (16 < c → c ≤ 32 → busFactorScore c = 0.6) ∧
    (32 < c → c ≤ 64 → busFactorScore c = 0.7) ∧
    (64 < c → c ≤ 128 → busFactorScore c = 0.8) ∧
    (128 < c → c ≤ 256 → busFactorScore c = 0.9) ∧
    (256 < c → busFactorScore c = 1.0) ∧
    (c = 0 → busFactorScore c = 0.3) := by
  refine ⟨?_, ?_, ?_, ?_, ?_, ?_, ?_, ?_, ?_, ?_, ?_⟩
  all_goals intros
  all_goals unfold busFactorScore
  all_goals split_ifs <;> first | rfl | omega

/-- Witness for C1: count 257 exceeds every threshold and scores 1.0. -/
theorem busFactor_step_table_witness : busFactorScore 257 = 1.0 :=
  (busFactor_step_table 257).2.2.2.2.2.2.2.2.2.1 (by decide)

set_option maxHeartbeats 4000000 in
/-- **C10.** On positive contributor counts the bus-factor step function is
monotone non-decreasing; the extension to count 0 fails, because count 0
scores 0.3 while count 1 scores 0.1 (so `busFactorScore 1 < busFactorScore
0` refutes monotonicity on the pair (0, 1)). -/
theorem busFactor_monotone :
    (∀ c1 c2 : Nat, 1 ≤ c1 → c1 ≤ c2 →
      busFactorScore c1 ≤ busFactorScore c2) ∧
    busFactorScore 1 < busFactorScore 0 := by
  constructor
  · intro c1 c2 h1 h12
    unfold busFactorScore
    split_ifs <;> first | omega | norm_num
  · norm_num [busFactorScore]

/-- Witness for C10: instantiating monotonicity at counts 3 and 300. -/
theorem busFactor_monotone_witness :
    busFactorScore 3 ≤ busFactorScore 300 :=
  busFactor_monotone.1 3 300 (by decide) (by decide)

/-- Helper for C4: if the server answers pages `p, p+1, …` with arrays
whose lengths are listed in `ps`, all full (≥ 100) except the last one,
the loop visits exactly those pages, sums their lengths onto `total`, and
counts one request per page. -/
lemma busFactorLoop_pages (server : Nat → Except String Nat) (ps : List Nat) :
    ∀ (p total reqs fuel : Nat), ps ≠ [] →
      (∀ i, i < ps.length → server (p + i) = .ok (ps.getD i 0)) →
      (∀ i, i + 1 < ps.length → 100 ≤ ps.getD i 0) →
      ps.getD (ps.length - 1) 0 < 100 →
      ps.length ≤ fuel →
      busFactorLoop server fuel p total reqs =
        some (.ok (total + ps.sum, reqs + ps.length)) := by
  induction ps with
  | nil => intro p total reqs fuel hne; exact absurd rfl hne
  | cons x rest ih =>
    intro p total reqs fuel _ hserver hfull hlast hfuel
    match fuel, hfuel with
    | fuel + 1, hfuel2 =>
      have hx : server p = .ok x := by simpa using hserver 0 (by simp)
      rw [busFactorLoop, hx]
      cases rest with
      | nil =>
        have hx100 : x < 100 := by simpa using hlast
        simp [hx100]
      | cons y rest2 =>
        have hx100 : 100 ≤ x := by simpa using hfull 0 (by simp)
        have hnot : ¬ x < 100 := by omega
        simp only [hnot, if_false]
        have hstep := ih (p + 1) (total + x) (reqs + 1) fuel (by simp)
          (fun i hi => by
            have h1 : p + 1 + i = p + (i + 1) := by omega
            have h2 := hserver (i + 1) (by simpa using Nat.succ_lt_succ hi)
            simpa [h1] using h2)
          (fun i hi => by
            have h2 := hfull (i + 1) (by simpa using Nat.succ_lt_succ hi)
            simpa using h2)
          (by simpa using hlast)
          (by simp only [List.length_cons] at hfuel2 ⊢; omega)
        rw [hstep]
        have e1 : total + x + (y :: rest2).sum = total + (x :: y :: rest2).sum := by
          simp [List.sum_cons]; omega
        have e2 : reqs + 1 + (y :: rest2).length = reqs + (x :: y :: rest2).length := by
          simp [List.length_cons]; omega
        rw [e1, e2]

/-- **C4.** Contributor pagination starts at page 1 with fixed page size
100, increments the page each iteration, sums the lengths of the fetched
pages, and terminates the first time a page has fewer than 100 entries:
if the server's pages (from page 1) have lengths `ps`, all full except the
last, the loop returns the sum of `ps` after exactly `ps.length`
requests. -/
theorem busFactor_pagination (server : Nat → Except String Nat)
    (ps : List Nat) (fuel : Nat) (hne : ps ≠ [])
    (hserver : ∀ i, i < ps.length → server (1 + i) = .ok (ps.getD i 0))
    (hfull : ∀ i, i + 1 < ps.length → 100 ≤ ps.getD i 0)
    (hlast : ps.getD (ps.length - 1) 0 < 100)
    (hfuel : ps.length ≤ fuel) :
    busFactorLoop server fuel 1 0 0 = some (.ok (ps.sum, ps.length)) := by
  simpa using busFactorLoop_pages server ps 1 0 0 fuel hne hserver hfull hlast hfuel

/-- Witness for C4: pages of 100, 100 and 50 contributors give a total of
250 after exactly 3 requests. -/
theorem busFactor_pagination_witness :
    busFactorLoop (fun page => .ok ([100, 100, 50].getD (page - 1) 0)) 3 1 0 0 =
      some (.ok (250, 3)) := by
  have h := busFactor_pagination (fun page => .ok ([100, 100, 50].getD (page - 1) 0))
    [100, 100, 50] 3 (by decide)
    (by intro i hi; simp only [List.length_cons, List.length_nil] at hi;
        interval_cases i <;> rfl)
    (by intro i hi; simp only [List.length_cons, List.length_nil] at hi;
        have hi2 : i = 0 ∨ i = 1 := by omega
        rcases hi2 with h | h <;> subst h <;> decide)
    (by decide) (by decide)
  simpa using h

/-- Helper for C6: if every page before `p` comes back full and the
request for page `p` fails, the loop surfaces exactly that error. -/
lemma busFactorLoop_error (server : Nat → Except String Nat) (e : String) (p : Nat) :
    ∀ (fuel start total reqs : Nat),
      start ≤ p → p - start < fuel →
      (∀ q, start ≤ q → q < p → ∃ len, server q = .ok len ∧ 100 ≤ len) →
      server p = .error e →
      busFactorLoop server fuel start total reqs = some (.error e) := by
  intro fuel
  induction fuel with
  | zero => intro start total reqs hsp hfuel hok herr; omega
  | succ fuel ih =>
    intro start total reqs hsp hfuel hok herr
    by_cases hq : start = p
    · subst hq
      rw [busFactorLoop, herr]
    · have hlt : start < p := lt_of_le_of_ne hsp hq
      obtain ⟨len, hsrv, hlen⟩ := hok start le_rfl hlt
      rw [busFactorLoop, hsrv]
      have hnot : ¬ len < 100 := by omega
      simp only [hnot, if_false]
      exact ih (start + 1) (total + len) (reqs + 1) (by omega) (by omega)
        (fun q hq1 hq2 => hok q (by omega) hq2) herr

/-- **C6.** If any contributor-page request fails (all earlier pages
having come back full, so the loop actually reaches it), `getBusFactor`
returns the sentinel `-1` instead of propagating the failure: the
`try/catch` converts every request error into that value. -/
theorem getBusFactor_error_sentinel (server : Nat → Except String Nat)
    (fuel p : Nat) (e : String) (hp : 1 ≤ p) (hfuel : p ≤ fuel)
    (hok : ∀ q, 1 ≤ q → q < p → ∃ len, server q = .ok len ∧ 100 ≤ len)
    (herr : server p = .error e) :
    getBusFactor server fuel = some (-1) := by
  unfold getBusFactor
  rw [busFactorLoop_error server e p fuel 1 0 0 hp (by omega) hok herr]

/-- Witness for C6: the very first page request failing yields score -1. -/
theorem getBusFactor_error_sentinel_witness :
    getBusFactor (fun _ => .error "network failure") 1 = some (-1) :=
  getBusFactor_error_sentinel (fun _ => .error "network failure") 1 1
    "network failure" le_rfl le_rfl
    (fun q h1 h2 => absurd h2 (by omega)) rfl

/-!
## Theorems: ramp-up metric (claims C7, C8)
-/

/-- A trimmed line starting with `/*` cannot also start with `//`, so the
line-comment branch cannot fire on a block-comment opener. -/
lemma startsWith_block_not_line (cs : List Char)
    (h : jsStartsWith cs "/*".data = true) :
    jsStartsWith cs "//".data = false := by
  unfold jsStartsWith at h ⊢
  match cs with
  | [] => simp [List.isPrefixOf] at h
  | [c] => simp [List.isPrefixOf] at h
  | c1 :: c2 :: t =>
    simp [List.isPrefixOf] at h ⊢
    intro h1
    rw [← h.2]
    decide

/-- While the block-comment flag is set and no line ends with `*/`, every
line — blank ones included — is counted as a comment and none as code. -/
lemma slocLoop_inBlock_all_comments (lines : List (List Char)) :
    ∀ (sloc comments : Nat),
      (∀ l ∈ lines, jsEndsWith (jsTrim l) "*/".data = false) →
      slocLoop lines true sloc comments = ⟨sloc, comments + lines.length⟩ := by
  induction lines with
  | nil => intro sloc comments _; simp [slocLoop]
  | cons l rest ih =>
    intro sloc comments h
    have hl : jsEndsWith (jsTrim l) "*/".data = false := h l (by simp)
    rw [slocLoop]
    simp only [hl, if_true, Bool.not_false]
    rw [ih (sloc) (comments + 1) (fun l' hl' => h l' (by simp [hl']))]
    simp [List.length_cons]
    omega

/-- **C7.** If the first line of a file opens a block comment (`/*` after
trimming, no `*/` at its end) and no line among the first 100 ends with a
block-comment terminator, then every considered line — including blank
ones — is counted as a comment and the file contributes zero code
lines. -/
theorem rampUp_unclosed_block (fileContent : String)
    (l0 : List Char) (rest : List (List Char))
    (hsplit : (splitLines fileContent.data).take 100 = l0 :: rest)
    (hopen : jsStartsWith (jsTrim l0) "/*".data = true)
    (hnoclose0 : jsEndsWith (jsTrim l0) "*/".data = false)
    (hnoclose : ∀ l ∈ rest, jsEndsWith (jsTrim l) "*/".data = false) :
    countSlocAndCommentsLimited fileContent =
      ⟨0, ((splitLines fileContent.data).take 100).length⟩ := by
  unfold countSlocAndCommentsLimited
  rw [hsplit]
  rw [slocLoop]
  simp only [if_false, Bool.false_eq_true, startsWith_block_not_line _ hopen,
    hopen, hnoclose0, if_true, Bool.not_false]
  rw [slocLoop_inBlock_all_comments rest 0 1 hnoclose]
  simp [List.length_cons]
  omega

/-- Witness for C7: a four-line file whose unclosed block comment starts
on line 1 counts 4 comment lines (one of them blank) and 0 code lines. -/
theorem rampUp_unclosed_block_witness :
    countSlocAndCommentsLimited "/* opening\nsome text\n\nmore text" =
      ⟨0, 4⟩ := by
  have h := rampUp_unclosed_block "/* opening\nsome text\n\nmore text"
    "/* opening".data ["some text".data, "".data, "more text".data]
    (by decide) (by decide) (by decide) (by decide)
  simpa using h

/-- **C8.** The ramp-up ratio is the unguarded quotient `comments /
sloc`: with zero total code lines it is the division-by-zero value
(`NaN` for `0 / 0`, `+Infinity` otherwise) and never a substituted finite
number; with a positive code-line total it is exactly total comments
divided by total code lines. -/
theorem rampUp_ratio_unguarded (files : List String) :
    ((calculateRampUpMetric files).sloc = 0 →
      (calculateRampUpMetric files).ratio =
        jsDivNat (calculateRampUpMetric files).comments 0 ∧
      ∀ q : Rat, (calculateRampUpMetric files).ratio ≠ JsNumber.num q) ∧
    (0 < (calculateRampUpMetric files).sloc →
      (calculateRampUpMetric files).ratio =
        JsNumber.num (((calculateRampUpMetric files).comments : Rat) /
          ((calculateRampUpMetric files).sloc : Rat))) := by
  have hratio : (calculateRampUpMetric files).ratio =
      jsDivNat (calculateRampUpMetric files).comments
        (calculateRampUpMetric files).sloc := rfl
  constructor
  · intro h0
    refine ⟨by rw [hratio, h0], ?_⟩
    intro q
    rw [hratio, h0]
    unfold jsDivNat
    rw [if_pos rfl]
    split_ifs <;> simp
  · intro hpos
    rw [hratio]
    unfold jsDivNat
    rw [if_neg (by omega)]

/-- Witness for C8: a checkout whose only file is a single comment line
has zero code lines and its ratio is not any finite number (here
instantiated at 0, the value a guarded implementation would return). -/
theorem rampUp_ratio_unguarded_witness :
    (calculateRampUpMetric ["// just a comment"]).ratio ≠ JsNumber.num 0 :=
  ((rampUp_ratio_unguarded ["// just a comment"]).1 (by decide)).2 0

/-!
## Theorems: license check (claims C5, C2, C3, C9)
-/

/-- **C5.** With no (or an empty) `GITHUB_TOKEN`, the license check
returns `{score: 0, details: 'GitHub token not set'}` immediately, for
every URL; the result is the same for every network environment, i.e. no
response is ever consulted — zero network calls. -/
theorem license_no_token (token : Option String) (env : NetworkEnv) (url : String)
    (h : token.getD "" = "") :
    checkLicenseCompatibility token env url = ⟨0, "GitHub token not set"⟩ := by
  unfold checkLicenseCompatibility
  rw [if_pos h]

/-- Witness for C5: unset token, arbitrary environment and URL. -/
theorem license_no_token_witness :
    checkLicenseCompatibility none ⟨.ok none, none, none, .error "net"⟩
      "https://github.com/a/b" = ⟨0, "GitHub token not set"⟩ :=
  license_no_token none ⟨.ok none, none, none, .error "net"⟩
    "https://github.com/a/b" rfl

/-- **C2.** The resolution cascade tries LICENSE file, then manifest,
then README, terminal on the first non-empty text: (1) a non-empty
LICENSE file decides the result whatever the manifest and README would
answer; (2) with the LICENSE fetch failed, a non-empty manifest `license`
field decides the result whatever the README would answer; (3) when the
first two steps produce no text and the README fetch succeeds but yields
no (non-empty) `License` section, the result is score 0 with details
`No license information found`. -/
theorem license_cascade (token : Option String) (url : String)
    (htok : ¬ token.getD "" = "")
    (hurl : jsStartsWith url.data npmUrlStart.data = false) :
    (∀ t, t ≠ "" → ∀ npm pj rm,
      checkLicenseCompatibility token ⟨npm, some t, pj, rm⟩ url =
        scoreLicenseInfo t) ∧
    (∀ t, t ≠ "" → ∀ npm rm,
      checkLicenseCompatibility token ⟨npm, none, some (some t), rm⟩ url =
        scoreLicenseInfo t) ∧
    (∀ env : NetworkEnv, licenseInfoAfterSteps12 env = "" →
      ∀ content, env.readme = .ok content →
      (extractLicenseFromReadme content).getD "" = "" →
      checkLicenseCompatibility token env url =
        ⟨0, "No license information found"⟩) := by
  refine ⟨?_, ?_, ?_⟩
  · intro t ht npm pj rm
    unfold checkLicenseCompatibility
    rw [if_neg htok, if_neg (by simp [hurl])]
    unfold licenseResolutionResult licenseInfoAfterSteps12
    simp [ht]
  · intro t ht npm rm
    unfold checkLicenseCompatibility
    rw [if_neg htok, if_neg (by simp [hurl])]
    unfold licenseResolutionResult licenseInfoAfterSteps12
    simp [ht]
  · intro env hsteps content hreadme hextract
    unfold checkLicenseCompatibility
    rw [if_neg htok, if_neg (by simp [hurl])]
    unfold licenseResolutionResult
    rw [hsteps, if_pos rfl, hreadme]
    simp [readmeStep, hextract, scoreLicenseInfo]

/-- Witness for C2: a non-empty LICENSE file is terminal even though the
README request would fail. -/
theorem license_cascade_witness :
    checkLicenseCompatibility (some "tok")
      ⟨.ok none, some "MIT License", none, .error "boom"⟩
      "https://github.com/owner/repo" = scoreLicenseInfo "MIT License" :=
  (license_cascade (some "tok") "https://github.com/owner/repo"
    (by decide) (by decide)).1 "MIT License" (by decide)
    (.ok none) none (.error "boom")

/-- **C3 (amended).** For non-empty resolved text the score is 1 exactly
when the lowered text contains some allow-list entry lowered, or that
entry with only its FIRST hyphen replaced by a space (JavaScript
`String.replace` with a string pattern replaces one occurrence); the
details string is the first line of the text plus the verdict. -/
theorem license_allowlist_first_hyphen (text : String) (h : text ≠ "") :
    scoreLicenseInfo text =
      ⟨if isCompatibleWithLGPLv2_1 text then 1 else 0,
       "License found: " ++ jsFirstLine text ++ ". Compatible: " ++
         boolToString (isCompatibleWithLGPLv2_1 text)⟩ ∧
    (isCompatibleWithLGPLv2_1 text = true ↔
      ∃ license ∈ compatibleLicenses,
        jsIncludes (jsToLower text) (jsToLower license) = true ∨
        jsIncludes (jsToLower text)
          (jsReplaceFirst (jsToLower license) '-' ' ') = true) := by
  constructor
  · unfold scoreLicenseInfo
    rw [if_neg h]
  · unfold isCompatibleWithLGPLv2_1
    rw [List.any_eq_true]
    simp only [Bool.or_eq_true]

/-- Witness for C3's amended theorem: text containing `MIT` scores 1. -/
theorem license_allowlist_first_hyphen_witness :
    (scoreLicenseInfo "MIT License").score = 1 := by
  have h := (license_allowlist_first_hyphen "MIT License" (by decide)).1
  rw [h]
  decide

/-- Counterexample to C3 as stated: under the claim's reading (an entry's
hyphens treated as spaces) the text `BSD 2 Clause` contains
`BSD-2-Clause`, yet the code scores it 0 — only the first hyphen is
replaced, so the code looks for `bsd 2-clause` and misses. -/
theorem license_allowlist_cex :
    claimAllHyphensCompatible "BSD 2 Clause" = true ∧
    isCompatibleWithLGPLv2_1 "BSD 2 Clause" = false ∧
    (scoreLicenseInfo "BSD 2 Clause").score = 0 := by
  decide

/-- **C9.** A cascade step succeeds only with non-empty text: a LICENSE
file that fetches but decodes to the empty string, or (with the LICENSE
fetch failed) a manifest whose `license` field is absent or empty, both
fall through to the README step. -/
theorem license_empty_steps_fall_through (env : NetworkEnv)
    (h : env.licenseFile = some "" ∨
         (env.licenseFile = none ∧ (env.packageJson.bind id).getD "" = "")) :
    licenseResolutionResult env = readmeStep env.readme := by
  unfold licenseResolutionResult licenseInfoAfterSteps12
  rcases h with h | ⟨h1, h2⟩
  · rw [h]
    simp
  · rw [h1]
    have h2x : (env.packageJson.bind fun a => a).getD "" = "" := h2
    simp [h2x]

/-- Witness for C9: an empty LICENSE file falls through and the README's
`## License` section is used. -/
theorem license_empty_steps_fall_through_witness :
    licenseResolutionResult
      ⟨.ok none, some "", none, .ok "## License\nMIT License"⟩ =
      Except.ok "MIT License" := by
  have h := license_empty_steps_fall_through
    ⟨.ok none, some "", none, .ok "## License\nMIT License"⟩ (Or.inl rfl)
  rw [h]
  rfl
